import Mathlib

/-!
Verification of the thermal-shutdown guard of the `win-temp` repository
(route handlers `checkAndTriggerShutdown`, `GET`, `POST`, `DELETE` and the
`ThermalConfig` singleton, `src/unnamed/part_002` lines 1010-1168).

Temperatures, thresholds, timestamps and delays are modelled as `Int`.
The external `shutdown` command invocations (`execAsync`) are modelled by
an explicit Boolean parameter telling whether the invocation would succeed,
plus a `Nat` in the result counting how many external invocations the call
attempted; the source wraps the invocation in `try/catch` and only logs on
failure, which the model mirrors by the state result being independent of
that Boolean.
-/

/-- The `ThermalConfig` interface: policy fields plus the incident fields,
stored together in the `globalThis.__thermalConfig` singleton. -/
structure ThermalConfig where
  enabled : Bool
  cpuThreshold : Int
  gpuThreshold : Int
  mbThreshold : Int
  shutdownDelay : Int
  triggered : Bool
  triggeredAt : Option Int
  triggeredBy : Option String
  triggeredTemp : Option Int
  deriving Repr, DecidableEq

/-- The `defaultConfig` constant of the source. -/
def defaultConfig : ThermalConfig :=
  { enabled := false
    cpuThreshold := 80
    gpuThreshold := 85
    mbThreshold := 75
    shutdownDelay := 60
    triggered := false
    triggeredAt := none
    triggeredBy := none
    triggeredTemp := none }

/-- `checkAndTriggerShutdown(cpuTemp, gpuTemp, mbTemp)`: evaluate one tick.
`now` stands for `Date.now()`; `execOk` tells whether the external
`shutdown /s` command would succeed (the source catches its failure and only
logs).  Returns the new config together with the number of external shutdown
invocations attempted by this call.  The three sequential `if` blocks of the
source mutate the local variables `shouldShutdown`, `reason`, `triggerTemp`;
they are threaded here as the triple `st`. -/
def checkAndTriggerShutdown (cpuTemp gpuTemp mbTemp : Option Int) (now : Int)
    (execOk : Bool) (config : ThermalConfig) : ThermalConfig × Nat :=
  if !config.enabled || config.triggered then (config, 0)
  else
    let st : Bool × String × Int := (false, "", 0)
    let st : Bool × String × Int :=
      match cpuTemp with
      | some t => if config.cpuThreshold ≤ t then (true, "cpu", t) else st
      | none => st
    let st : Bool × String × Int :=
      match gpuTemp with
      | some t =>
          if config.gpuThreshold ≤ t then
            (true, if st.2.1 ≠ "" then st.2.1 ++ "+gpu" else "gpu", t)
          else st
      | none => st
    let st : Bool × String × Int :=
      match mbTemp with
      | some t =>
          if config.mbThreshold ≤ t then
            (true, if st.2.1 ≠ "" then st.2.1 ++ "+mb" else "mb", t)
          else st
      | none => st
    if st.1 then
      ({ config with
          triggered := true
          triggeredAt := some now
          triggeredBy := some st.2.1
          triggeredTemp := some st.2.2 }, 1)
    else (config, 0)

/-- A parsed JSON value, as far as the route handlers inspect one. -/
inductive JVal where
  | jbool (b : Bool)
  | jnum (n : Int)
  | jstr (s : String)
  | jnull
  deriving Repr, DecidableEq

/-- A parsed JSON object body: association list of keys to values. -/
def JBody := List (String × JVal)

/-- Property access `body.k` on the parsed body. -/
def getField (body : JBody) (k : String) : Option JVal :=
  (body.find? (fun p => p.1 = k)).map Prod.snd

/-- The `POST` handler's body (after `request.json()` succeeded): the five
sequential `if (typeof body.x === ...)` blocks, each calling `setConfig` on
its own field when the type and range checks pass. -/
def POST (body : JBody) (config : ThermalConfig) : ThermalConfig :=
  let config :=
    match getField body "enabled" with
    | some (.jbool b) => { config with enabled := b }
    | _ => config
  let config :=
    match getField body "cpuThreshold" with
    | some (.jnum n) =>
        if 30 ≤ n ∧ n ≤ 120 then { config with cpuThreshold := n } else config
    | _ => config
  let config :=
    match getField body "gpuThreshold" with
    | some (.jnum n) =>
        if 30 ≤ n ∧ n ≤ 120 then { config with gpuThreshold := n } else config
    | _ => config
  let config :=
    match getField body "mbThreshold" with
    | some (.jnum n) =>
        if 30 ≤ n ∧ n ≤ 120 then { config with mbThreshold := n } else config
    | _ => config
  let config :=
    match getField body "shutdownDelay" with
    | some (.jnum n) =>
        if 10 ≤ n ∧ n ≤ 300 then { config with shutdownDelay := n } else config
    | _ => config
  config

/-- The `DELETE` handler (cancel): first attempts `shutdown /a` (its failure
is caught and only logged — `cancelOk` tells whether it would succeed), then
unconditionally clears the incident fields and returns the resulting config.
The `Nat` counts external cancel invocations attempted (always 1). -/
def DELETE (cancelOk : Bool) (config : ThermalConfig) : ThermalConfig × Nat :=
  ({ config with
      triggered := false
      triggeredAt := none
      triggeredBy := none
      triggeredTemp := none }, 1)

/-- Whether a present metric meets or exceeds its threshold (the source's
`temp !== null && temp >= threshold`). -/
def trips (temp : Option Int) (threshold : Int) : Bool :=
  match temp with
  | some t => threshold ≤ t
  | none => false

/-- The tags of all tripped metrics in evaluation order (cpu, gpu, mb),
joined by `+`. -/
def reasonOf (tc tg tm : Bool) : String :=
  String.intercalate "+"
    ((if tc then ["cpu"] else []) ++ (if tg then ["gpu"] else []) ++
      (if tm then ["mb"] else []))

/-- The value of the metric that matched last in evaluation order
(cpu, then gpu, then mb), i.e. the latest tripped metric. -/
def lastTripTemp (cpuTemp gpuTemp mbTemp : Option Int)
    (c : ThermalConfig) : Option Int :=
  if trips mbTemp c.mbThreshold then mbTemp
  else if trips gpuTemp c.gpuThreshold then gpuTemp
  else if trips cpuTemp c.cpuThreshold then cpuTemp
  else none

/-- Characterization of a triggering tick: when the guard is enabled, not yet
triggered, and at least one present metric meets its threshold, the call
records the incident (reason joined in order, temp of the last-matching
metric) and attempts exactly one external shutdown invocation, independently
of whether that invocation succeeds. -/
lemma checkAndTriggerShutdown_trips (cpuTemp gpuTemp mbTemp : Option Int)
    (now : Int) (execOk : Bool) (c : ThermalConfig)
    (h1 : c.enabled = true) (h2 : c.triggered = false)
    (h3 : trips cpuTemp c.cpuThreshold = true ∨
          trips gpuTemp c.gpuThreshold = true ∨
          trips mbTemp c.mbThreshold = true) :
    checkAndTriggerShutdown cpuTemp gpuTemp mbTemp now execOk c =
      ({ c with
          triggered := true
          triggeredAt := some now
          triggeredBy := some (reasonOf (trips cpuTemp c.cpuThreshold)
            (trips gpuTemp c.gpuThreshold) (trips mbTemp c.mbThreshold))
          triggeredTemp := lastTripTemp cpuTemp gpuTemp mbTemp c }, 1) := by
  rcases cpuTemp with _ | ct <;> rcases gpuTemp with _ | gt <;>
    rcases mbTemp with _ | mt
  · simp [trips] at h3
  · by_cases hm : c.mbThreshold ≤ mt <;>
      simp only [trips, decide_eq_true_eq] at h3 <;>
      simp [checkAndTriggerShutdown, trips, lastTripTemp, reasonOf, h1, h2, hm] <;>
      first | rfl | (exfalso; tauto)
  · by_cases hg : c.gpuThreshold ≤ gt <;>
      simp only [trips, decide_eq_true_eq] at h3 <;>
      simp [checkAndTriggerShutdown, trips, lastTripTemp, reasonOf, h1, h2, hg] <;>
      first | rfl | (exfalso; tauto)
  · by_cases hg : c.gpuThreshold ≤ gt <;> by_cases hm : c.mbThreshold ≤ mt <;>
      simp only [trips, decide_eq_true_eq] at h3 <;>
      simp [checkAndTriggerShutdown, trips, lastTripTemp, reasonOf, h1, h2, hg, hm] <;>
      first | rfl | (exfalso; tauto)
  · by_cases hc : c.cpuThreshold ≤ ct <;>
      simp only [trips, decide_eq_true_eq] at h3 <;>
      simp [checkAndTriggerShutdown, trips, lastTripTemp, reasonOf, h1, h2, hc] <;>
      first | rfl | (exfalso; tauto)
  · by_cases hc : c.cpuThreshold ≤ ct <;> by_cases hm : c.mbThreshold ≤ mt <;>
      simp only [trips, decide_eq_true_eq] at h3 <;>
      simp [checkAndTriggerShutdown, trips, lastTripTemp, reasonOf, h1, h2, hc, hm] <;>
      first | rfl | (exfalso; tauto)
  · by_cases hc : c.cpuThreshold ≤ ct <;> by_cases hg : c.gpuThreshold ≤ gt <;>
      simp only [trips, decide_eq_true_eq] at h3 <;>
      simp [checkAndTriggerShutdown, trips, lastTripTemp, reasonOf, h1, h2, hc, hg] <;>
      first | rfl | (exfalso; tauto)
  · by_cases hc : c.cpuThreshold ≤ ct <;> by_cases hg : c.gpuThreshold ≤ gt <;>
      by_cases hm : c.mbThreshold ≤ mt <;>
      simp only [trips, decide_eq_true_eq] at h3 <;>
      simp [checkAndTriggerShutdown, trips, lastTripTemp, reasonOf, h1, h2, hc, hg, hm] <;>
      first | rfl | (exfalso; tauto)

/-- Characterization of a non-triggering tick: if the guard is disabled, or
already triggered, or no present metric meets its threshold, the call leaves
the state unchanged and attempts no external invocation. -/
lemma checkAndTriggerShutdown_noop (cpuTemp gpuTemp mbTemp : Option Int)
    (now : Int) (execOk : Bool) (c : ThermalConfig)
    (h : c.enabled = false ∨ c.triggered = true ∨
      (trips cpuTemp c.cpuThreshold = false ∧
       trips gpuTemp c.gpuThreshold = false ∧
       trips mbTemp c.mbThreshold = false)) :
    checkAndTriggerShutdown cpuTemp gpuTemp mbTemp now execOk c = (c, 0) := by
  rcases h with h | h | ⟨hc, hg, hm⟩
  · simp [checkAndTriggerShutdown, h]
  · simp [checkAndTriggerShutdown, h]
  · rcases cpuTemp with _ | ct <;> rcases gpuTemp with _ | gt <;>
      rcases mbTemp with _ | mt <;>
      simp only [trips, decide_eq_false_iff_not] at hc hg hm <;>
      simp [checkAndTriggerShutdown, hc, hg, hm]

/-- Specification-side view of one Boolean policy field of an update:
the new value when the body carries a Boolean under the key, the old value
otherwise. -/
def appliedBool (body : JBody) (k : String) (old : Bool) : Bool :=
  match getField body k with
  | some (.jbool b) => b
  | _ => old

/-- Specification-side view of one numeric policy field of an update:
the new value when the body carries an in-range number under the key, the
old value otherwise. -/
def appliedNum (body : JBody) (k : String) (lo hi old : Int) : Int :=
  match getField body k with
  | some (.jnum n) => if lo ≤ n ∧ n ≤ hi then n else old
  | _ => old

/-- The `POST` handler acts field-wise: each recognized field is applied
independently exactly when present with the right type and in range; all
other fields of the config (in particular the four incident fields) are
untouched, whatever the body contains. -/
lemma POST_fieldwise (body : JBody) (c : ThermalConfig) :
    POST body c =
      { c with
          enabled := appliedBool body "enabled" c.enabled
          cpuThreshold := appliedNum body "cpuThreshold" 30 120 c.cpuThreshold
          gpuThreshold := appliedNum body "gpuThreshold" 30 120 c.gpuThreshold
          mbThreshold := appliedNum body "mbThreshold" 30 120 c.mbThreshold
          shutdownDelay :=
            appliedNum body "shutdownDelay" 10 300 c.shutdownDelay } := by
  simp only [POST, appliedBool, appliedNum]
  repeat' split
  all_goals rfl

/-- A metric trips only when it is present. -/
lemma trips_eq_true_iff (t : Option Int) (th : Int) :
    trips t th = true ↔ ∃ x, t = some x ∧ th ≤ x := by
  cases t <;> simp [trips]

/-- C1 fails on the code: with the default thresholds (cpu 80, gpu 85) and
the guard enabled, a tick with cpu=90 and gpu=95 records
`triggeredTemp = 95` (the gpu value, the later match), not 90 (the cpu
value, the first match) as the claim states. -/
theorem C1_counterexample :
    (checkAndTriggerShutdown (some 90) (some 95) none 0 true
        { defaultConfig with enabled := true }).1.triggeredTemp = some 95 ∧
    (checkAndTriggerShutdown (some 90) (some 95) none 0 true
        { defaultConfig with enabled := true }).1.triggeredTemp ≠ some 90 := by
  constructor
  · decide
  · decide

/-- C1 (amended): on a triggering tick the incident's `triggeredTemp` equals
the value of the metric that matched LAST in the fixed evaluation order
cpu, gpu, mb — each matching branch overwrites `triggerTemp` — not the value
of the first match and not the maximum; e.g. cpu=90 (threshold 80) and
gpu=95 (threshold 85) in one tick yield `triggeredTemp = 95`. -/
theorem C1_last_match_wins (cpuTemp gpuTemp mbTemp : Option Int)
    (now : Int) (execOk : Bool) (c : ThermalConfig)
    (h1 : c.enabled = true) (h2 : c.triggered = false)
    (h3 : trips cpuTemp c.cpuThreshold = true ∨
          trips gpuTemp c.gpuThreshold = true ∨
          trips mbTemp c.mbThreshold = true) :
    (checkAndTriggerShutdown cpuTemp gpuTemp mbTemp now execOk c).1.triggeredTemp
      = lastTripTemp cpuTemp gpuTemp mbTemp c := by
  rw [checkAndTriggerShutdown_trips cpuTemp gpuTemp mbTemp now execOk c h1 h2 h3]

/-- Witness for C1_last_match_wins at cpu=90, gpu=95, default thresholds:
the recorded temp is the gpu (last-matching) value 95. -/
theorem C1_witness :
    (checkAndTriggerShutdown (some 90) (some 95) none 0 true
        { defaultConfig with enabled := true }).1.triggeredTemp
      = lastTripTemp (some 90) (some 95) none
          { defaultConfig with enabled := true } :=
  C1_last_match_wins (some 90) (some 95) none 0 true
    { defaultConfig with enabled := true } rfl rfl (Or.inl (by decide))

/-- C2: once triggered, every further evaluation call is a no-op — the state
(hence the original incident record) is returned unchanged and no external
shutdown invocation is attempted; consequently two consecutive triggering
evaluations from an armed state perform exactly one external shutdown
invocation and the second call does not alter the incident. -/
theorem C2_triggered_is_noop :
    (∀ (cpuTemp gpuTemp mbTemp : Option Int) (now : Int) (execOk : Bool)
        (c : ThermalConfig), c.triggered = true →
        checkAndTriggerShutdown cpuTemp gpuTemp mbTemp now execOk c = (c, 0)) ∧
    (∀ (cpuTemp gpuTemp mbTemp : Option Int) (now1 now2 : Int)
        (ok1 ok2 : Bool) (c : ThermalConfig),
        c.enabled = true → c.triggered = false →
        (trips cpuTemp c.cpuThreshold = true ∨
         trips gpuTemp c.gpuThreshold = true ∨
         trips mbTemp c.mbThreshold = true) →
        (checkAndTriggerShutdown cpuTemp gpuTemp mbTemp now2 ok2
            (checkAndTriggerShutdown cpuTemp gpuTemp mbTemp now1 ok1 c).1).1 =
          (checkAndTriggerShutdown cpuTemp gpuTemp mbTemp now1 ok1 c).1 ∧
        (checkAndTriggerShutdown cpuTemp gpuTemp mbTemp now1 ok1 c).2 +
          (checkAndTriggerShutdown cpuTemp gpuTemp mbTemp now2 ok2
            (checkAndTriggerShutdown cpuTemp gpuTemp mbTemp now1 ok1 c).1).2
          = 1) := by
  constructor
  · intro cpuTemp gpuTemp mbTemp now execOk c h
    exact checkAndTriggerShutdown_noop cpuTemp gpuTemp mbTemp now execOk c
      (Or.inr (Or.inl h))
  · intro cpuTemp gpuTemp mbTemp now1 now2 ok1 ok2 c h1 h2 h3
    rw [checkAndTriggerShutdown_trips cpuTemp gpuTemp mbTemp now1 ok1 c h1 h2 h3]
    rw [checkAndTriggerShutdown_noop cpuTemp gpuTemp mbTemp now2 ok2 _
      (Or.inr (Or.inl rfl))]
    exact ⟨rfl, rfl⟩

/-- Witness for C2_triggered_is_noop: a second evaluation at cpu=90 after a
first triggering evaluation at cpu=90 changes nothing, and the two calls made
exactly one external shutdown invocation in total. -/
theorem C2_witness :
    (checkAndTriggerShutdown (some 90) none none 2 true
        (checkAndTriggerShutdown (some 90) none none 1 true
          { defaultConfig with enabled := true }).1).1 =
      (checkAndTriggerShutdown (some 90) none none 1 true
        { defaultConfig with enabled := true }).1 ∧
    (checkAndTriggerShutdown (some 90) none none 1 true
        { defaultConfig with enabled := true }).2 +
      (checkAndTriggerShutdown (some 90) none none 2 true
        (checkAndTriggerShutdown (some 90) none none 1 true
          { defaultConfig with enabled := true }).1).2 = 1 :=
  C2_triggered_is_noop.2 (some 90) none none 1 2 true true
    { defaultConfig with enabled := true } rfl rfl (Or.inl (by decide))

/-- C3: on a triggering tick whose external shutdown invocation fails
(`execOk = false`), the guard still ends in the Triggered state with the
full incident recorded, exactly one invocation was attempted (no retry), and
the resulting state and attempt count coincide with the successful case. -/
theorem C3_shutdown_failure_tolerated (cpuTemp gpuTemp mbTemp : Option Int)
    (now : Int) (c : ThermalConfig)
    (h1 : c.enabled = true) (h2 : c.triggered = false)
    (h3 : trips cpuTemp c.cpuThreshold = true ∨
          trips gpuTemp c.gpuThreshold = true ∨
          trips mbTemp c.mbThreshold = true) :
    (checkAndTriggerShutdown cpuTemp gpuTemp mbTemp now false c).1.triggered
        = true ∧
    (checkAndTriggerShutdown cpuTemp gpuTemp mbTemp now false c).1.triggeredAt
        = some now ∧
    (checkAndTriggerShutdown cpuTemp gpuTemp mbTemp now false c).1.triggeredBy
        = some (reasonOf (trips cpuTemp c.cpuThreshold)
            (trips gpuTemp c.gpuThreshold) (trips mbTemp c.mbThreshold)) ∧
    (checkAndTriggerShutdown cpuTemp gpuTemp mbTemp now false c).1.triggeredTemp
        = lastTripTemp cpuTemp gpuTemp mbTemp c ∧
    (checkAndTriggerShutdown cpuTemp gpuTemp mbTemp now false c).2 = 1 ∧
    checkAndTriggerShutdown cpuTemp gpuTemp mbTemp now false c
        = checkAndTriggerShutdown cpuTemp gpuTemp mbTemp now true c := by
  rw [checkAndTriggerShutdown_trips cpuTemp gpuTemp mbTemp now false c h1 h2 h3,
    checkAndTriggerShutdown_trips cpuTemp gpuTemp mbTemp now true c h1 h2 h3]
  exact ⟨rfl, rfl, rfl, rfl, rfl, rfl⟩

/-- Witness for C3_shutdown_failure_tolerated at cpu=90 with a failing
external invocation: the incident is recorded anyway. -/
theorem C3_witness :
    (checkAndTriggerShutdown (some 90) none none 7 false
        { defaultConfig with enabled := true }).1.triggered = true ∧
    (checkAndTriggerShutdown (some 90) none none 7 false
        { defaultConfig with enabled := true }).1.triggeredAt = some 7 ∧
    (checkAndTriggerShutdown (some 90) none none 7 false
        { defaultConfig with enabled := true }).1.triggeredBy
      = some (reasonOf (trips (some 90) 80) (trips none 85) (trips none 75)) ∧
    (checkAndTriggerShutdown (some 90) none none 7 false
        { defaultConfig with enabled := true }).1.triggeredTemp
      = lastTripTemp (some 90) none none { defaultConfig with enabled := true } ∧
    (checkAndTriggerShutdown (some 90) none none 7 false
        { defaultConfig with enabled := true }).2 = 1 ∧
    checkAndTriggerShutdown (some 90) none none 7 false
        { defaultConfig with enabled := true }
      = checkAndTriggerShutdown (some 90) none none 7 true
        { defaultConfig with enabled := true } :=
  C3_shutdown_failure_tolerated (some 90) none none 7
    { defaultConfig with enabled := true } rfl rfl (Or.inl (by decide))

/-- C4: a policy update with a parseable body validates each recognized
field independently — a field of the right type within range (thresholds in
[30, 120], shutdownDelay in [10, 300]) is applied while an invalid or
out-of-range field leaves the prior value of that field unchanged, unknown
fields are ignored, the call never errors (the handler is a total function
of the parsed body) and returns the full resulting policy; in particular
`update(\x7bcpuThreshold: 80, gpuThreshold: 999\x7d)` applies cpuThreshold=80
and leaves gpuThreshold untouched. -/
theorem C4_update_fieldwise (body : JBody) (c : ThermalConfig) :
    POST body c =
      { c with
          enabled := appliedBool body "enabled" c.enabled
          cpuThreshold := appliedNum body "cpuThreshold" 30 120 c.cpuThreshold
          gpuThreshold := appliedNum body "gpuThreshold" 30 120 c.gpuThreshold
          mbThreshold := appliedNum body "mbThreshold" 30 120 c.mbThreshold
          shutdownDelay :=
            appliedNum body "shutdownDelay" 10 300 c.shutdownDelay } ∧
    POST [("cpuThreshold", .jnum 80), ("gpuThreshold", .jnum 999)] c =
      { c with cpuThreshold := 80 } := by
  exact ⟨POST_fieldwise body c, POST_fieldwise _ c⟩

/-- C5: cancel (the DELETE handler) attempts the external cancel-shutdown
invocation first (exactly one attempt), tolerates its failure — the
resulting state is the same whether the external call succeeds or fails —
unconditionally clears the incident, returns the resulting state, and leaves
the guard re-armable: a subsequent triggering evaluation on the cleared
state starts a fresh incident with a fresh external shutdown request. -/
theorem C5_cancel_clears_and_rearms :
    (∀ (cancelOk : Bool) (c : ThermalConfig),
        DELETE cancelOk c =
          ({ c with
              triggered := false
              triggeredAt := none
              triggeredBy := none
              triggeredTemp := none }, 1)) ∧
    (∀ (cancelOk : Bool) (c : ThermalConfig) (t now : Int) (execOk : Bool),
        c.enabled = true → c.cpuThreshold ≤ t →
        (checkAndTriggerShutdown (some t) none none now execOk
            (DELETE cancelOk c).1).1.triggered = true ∧
        (checkAndTriggerShutdown (some t) none none now execOk
            (DELETE cancelOk c).1).2 = 1) := by
  refine ⟨fun cancelOk c => rfl, fun cancelOk c t now execOk h1 ht => ?_⟩
  have h1' : (DELETE cancelOk c).1.enabled = true := h1
  have h2' : (DELETE cancelOk c).1.triggered = false := rfl
  have h3' : trips (some t) (DELETE cancelOk c).1.cpuThreshold = true := by
    simpa [trips, DELETE] using ht
  rw [checkAndTriggerShutdown_trips (some t) none none now execOk _ h1' h2'
    (Or.inl h3')]
  exact ⟨rfl, rfl⟩

/-- Witness for C5_cancel_clears_and_rearms: cancelling a triggered incident
clears it even when the external cancel fails, and evaluating cpu=90 on the
cleared state re-triggers with a fresh shutdown request. -/
theorem C5_witness :
    DELETE false
        { defaultConfig with
            enabled := true
            triggered := true
            triggeredAt := some 1
            triggeredBy := some "cpu"
            triggeredTemp := some 90 } =
      ({ defaultConfig with enabled := true }, 1) ∧
    (checkAndTriggerShutdown (some 90) none none 9 true
        (DELETE false
          { defaultConfig with
              enabled := true
              triggered := true
              triggeredAt := some 1
              triggeredBy := some "cpu"
              triggeredTemp := some 90 }).1).1.triggered = true ∧
    (checkAndTriggerShutdown (some 90) none none 9 true
        (DELETE false
          { defaultConfig with
              enabled := true
              triggered := true
              triggeredAt := some 1
              triggeredBy := some "cpu"
              triggeredTemp := some 90 }).1).2 = 1 :=
  ⟨C5_cancel_clears_and_rearms.1 false _,
    C5_cancel_clears_and_rearms.2 false _ 90 9 true rfl (by decide)⟩

/-- C6: the threshold comparison is inclusive — a present metric whose
temperature exactly equals its configured threshold trips the guard, for
each of the three metrics. -/
theorem C6_inclusive_threshold (now : Int) (execOk : Bool) (c : ThermalConfig)
    (h1 : c.enabled = true) (h2 : c.triggered = false) :
    (checkAndTriggerShutdown (some c.cpuThreshold) none none now execOk
        c).1.triggered = true ∧
    (checkAndTriggerShutdown none (some c.gpuThreshold) none now execOk
        c).1.triggered = true ∧
    (checkAndTriggerShutdown none none (some c.mbThreshold) now execOk
        c).1.triggered = true := by
  refine ⟨?_, ?_, ?_⟩
  · rw [checkAndTriggerShutdown_trips _ _ _ now execOk c h1 h2
      (Or.inl (by simp [trips]))]
  · rw [checkAndTriggerShutdown_trips _ _ _ now execOk c h1 h2
      (Or.inr (Or.inl (by simp [trips])))]
  · rw [checkAndTriggerShutdown_trips _ _ _ now execOk c h1 h2
      (Or.inr (Or.inr (by simp [trips])))]

/-- Witness for C6_inclusive_threshold on the default thresholds with the
guard enabled: cpu=80, gpu=85 and mb=75 each trip exactly at threshold. -/
theorem C6_witness :
    (checkAndTriggerShutdown (some 80) none none 0 true
        { defaultConfig with enabled := true }).1.triggered = true ∧
    (checkAndTriggerShutdown none (some 85) none 0 true
        { defaultConfig with enabled := true }).1.triggered = true ∧
    (checkAndTriggerShutdown none none (some 75) 0 true
        { defaultConfig with enabled := true }).1.triggered = true :=
  C6_inclusive_threshold 0 true { defaultConfig with enabled := true } rfl rfl

/-- C7: when the policy is disabled, or no present metric meets or exceeds
its threshold (absent metrics are simply not evaluated), an evaluation tick
leaves the entire guard state unchanged and attempts no external shutdown
invocation. -/
theorem C7_no_trip_is_frame (cpuTemp gpuTemp mbTemp : Option Int)
    (now : Int) (execOk : Bool) (c : ThermalConfig)
    (h : c.enabled = false ∨
      (trips cpuTemp c.cpuThreshold = false ∧
       trips gpuTemp c.gpuThreshold = false ∧
       trips mbTemp c.mbThreshold = false)) :
    checkAndTriggerShutdown cpuTemp gpuTemp mbTemp now execOk c = (c, 0) :=
  checkAndTriggerShutdown_noop cpuTemp gpuTemp mbTemp now execOk c
    (h.imp id Or.inr)

/-- Witness for C7_no_trip_is_frame: below-threshold cpu=79 with gpu absent
and mb=74 on the enabled default policy changes nothing, and any
temperatures on the disabled default policy change nothing. -/
theorem C7_witness :
    checkAndTriggerShutdown (some 79) none (some 74) 0 true
        { defaultConfig with enabled := true } =
      ({ defaultConfig with enabled := true }, 0) ∧
    checkAndTriggerShutdown (some 500) (some 500) (some 500) 0 true
        defaultConfig = (defaultConfig, 0) :=
  ⟨C7_no_trip_is_frame (some 79) none (some 74) 0 true
      { defaultConfig with enabled := true } (Or.inr (by decide)),
    C7_no_trip_is_frame (some 500) (some 500) (some 500) 0 true
      defaultConfig (Or.inl rfl)⟩

/-- C8: on a triggering tick, `triggeredBy` is the join of the tags of all
metrics that tripped, in the fixed evaluation order cpu, gpu, mb, joined by
`+`. -/
theorem C8_reason_is_ordered_join (cpuTemp gpuTemp mbTemp : Option Int)
    (now : Int) (execOk : Bool) (c : ThermalConfig)
    (h1 : c.enabled = true) (h2 : c.triggered = false)
    (h3 : trips cpuTemp c.cpuThreshold = true ∨
          trips gpuTemp c.gpuThreshold = true ∨
          trips mbTemp c.mbThreshold = true) :
    (checkAndTriggerShutdown cpuTemp gpuTemp mbTemp now execOk c).1.triggeredBy
      = some (reasonOf (trips cpuTemp c.cpuThreshold)
          (trips gpuTemp c.gpuThreshold) (trips mbTemp c.mbThreshold)) := by
  rw [checkAndTriggerShutdown_trips cpuTemp gpuTemp mbTemp now execOk c h1 h2 h3]

/-- Witness for C8_reason_is_ordered_join: cpu=90 and gpu=95 tripping
together on default thresholds record `triggeredBy = "cpu+gpu"`. -/
theorem C8_witness :
    (checkAndTriggerShutdown (some 90) (some 95) none 0 true
        { defaultConfig with enabled := true }).1.triggeredBy
      = some "cpu+gpu" :=
  (C8_reason_is_ordered_join (some 90) (some 95) none 0 true
      { defaultConfig with enabled := true } rfl rfl
      (Or.inl (by decide))).trans (by decide)

/-- C9: while the guard is Triggered, an update that sets `enabled = false`
changes only the enabled flag — the four incident fields are intact (the
update handler performs no external cancel invocation at all; the embedding
of `POST` accordingly has no effect channel) — so disabling only stops
future evaluation. -/
theorem C9_disable_keeps_incident (c : ThermalConfig)
    (h : c.triggered = true) :
    POST [("enabled", JVal.jbool false)] c = { c with enabled := false } ∧
    (POST [("enabled", JVal.jbool false)] c).triggered = true ∧
    (POST [("enabled", JVal.jbool false)] c).triggeredAt = c.triggeredAt ∧
    (POST [("enabled", JVal.jbool false)] c).triggeredBy = c.triggeredBy ∧
    (POST [("enabled", JVal.jbool false)] c).triggeredTemp = c.triggeredTemp :=
  ⟨rfl, h, rfl, rfl, rfl⟩

/-- Witness for C9_disable_keeps_incident on a concrete triggered state. -/
theorem C9_witness :
    POST [("enabled", JVal.jbool false)]
        { defaultConfig with
            enabled := true
            triggered := true
            triggeredAt := some 1
            triggeredBy := some "cpu"
            triggeredTemp := some 90 } =
      { defaultConfig with
          triggered := true
          triggeredAt := some 1
          triggeredBy := some "cpu"
          triggeredTemp := some 90 } ∧
    (POST [("enabled", JVal.jbool false)]
        { defaultConfig with
            enabled := true
            triggered := true
            triggeredAt := some 1
            triggeredBy := some "cpu"
            triggeredTemp := some 90 }).triggered = true :=
  ⟨((C9_disable_keeps_incident _ rfl).1).trans (by decide),
    (C9_disable_keeps_incident _ rfl).2.1⟩

/-- The incident-consistency invariant: `triggered` is false exactly when
`triggeredAt`, `triggeredBy` and `triggeredTemp` are all null. -/
def IncidentInv (c : ThermalConfig) : Prop :=
  c.triggered = false ↔
    (c.triggeredAt = none ∧ c.triggeredBy = none ∧ c.triggeredTemp = none)

/-- C10: the incident-consistency invariant holds of the initial state and
is preserved by every operation; moreover a policy update never sets or
alters any of the four incident fields, whatever keys (including keys named
after the incident fields) its body contains. -/
theorem C10_incidentInv_preserved :
    IncidentInv defaultConfig ∧
    (∀ (cpuTemp gpuTemp mbTemp : Option Int) (now : Int) (execOk : Bool)
        (c : ThermalConfig), IncidentInv c →
        IncidentInv (checkAndTriggerShutdown cpuTemp gpuTemp mbTemp now execOk
          c).1) ∧
    (∀ (body : JBody) (c : ThermalConfig),
        (POST body c).triggered = c.triggered ∧
        (POST body c).triggeredAt = c.triggeredAt ∧
        (POST body c).triggeredBy = c.triggeredBy ∧
        (POST body c).triggeredTemp = c.triggeredTemp) ∧
    (∀ (body : JBody) (c : ThermalConfig),
        IncidentInv c → IncidentInv (POST body c)) ∧
    (∀ (cancelOk : Bool) (c : ThermalConfig),
        IncidentInv (DELETE cancelOk c).1) := by
  refine ⟨by simp [IncidentInv, defaultConfig], ?_, ?_, ?_, ?_⟩
  · intro cpuTemp gpuTemp mbTemp now execOk c hInv
    cases hb : c.triggered with
    | true =>
        rw [checkAndTriggerShutdown_noop cpuTemp gpuTemp mbTemp now execOk c
          (Or.inr (Or.inl hb))]
        exact hInv
    | false =>
        cases he : c.enabled with
        | false =>
            rw [checkAndTriggerShutdown_noop cpuTemp gpuTemp mbTemp now execOk c
              (Or.inl he)]
            exact hInv
        | true =>
            by_cases h3 : trips cpuTemp c.cpuThreshold = true ∨
                trips gpuTemp c.gpuThreshold = true ∨
                trips mbTemp c.mbThreshold = true
            · rw [checkAndTriggerShutdown_trips cpuTemp gpuTemp mbTemp now
                execOk c he hb h3]
              simp [IncidentInv]
            · rw [checkAndTriggerShutdown_noop cpuTemp gpuTemp mbTemp now
                execOk c (Or.inr (Or.inr
                  ⟨Bool.eq_false_iff.mpr fun h => h3 (Or.inl h),
                   Bool.eq_false_iff.mpr fun h => h3 (Or.inr (Or.inl h)),
                   Bool.eq_false_iff.mpr fun h => h3 (Or.inr (Or.inr h))⟩))]
              exact hInv
  · intro body c
    rw [POST_fieldwise body c]
    exact ⟨rfl, rfl, rfl, rfl⟩
  · intro body c hInv
    rw [IncidentInv, POST_fieldwise body c]
    exact hInv
  · intro cancelOk c
    simp [IncidentInv, DELETE]

/-- Witness for C10_incidentInv_preserved: the invariant holds after a
triggering evaluation, after a policy update whose body tries to set the
incident fields directly, and after a cancel. -/
theorem C10_witness :
    IncidentInv (checkAndTriggerShutdown (some 90) none none 3 true
      { defaultConfig with enabled := true }).1 ∧
    (POST [("triggered", JVal.jbool true), ("triggeredTemp", JVal.jnum 99)]
        defaultConfig).triggered = defaultConfig.triggered ∧
    IncidentInv (DELETE false
      { defaultConfig with
          triggered := true
          triggeredAt := some 1
          triggeredBy := some "cpu"
          triggeredTemp := some 90 }).1 :=
  ⟨C10_incidentInv_preserved.2.1 (some 90) none none 3 true
      { defaultConfig with enabled := true }
      (by simp [IncidentInv, defaultConfig]),
    (C10_incidentInv_preserved.2.2.1
      [("triggered", JVal.jbool true), ("triggeredTemp", JVal.jnum 99)]
      defaultConfig).1,
    C10_incidentInv_preserved.2.2.2.2 false _⟩
